import Mathlib

/-!
Verification of the worker-pool supervisor in `src/main.cpp`
(dlots/cpp-threads-training).

The program keeps two pieces of shared state: a `std::list<std::thread>`
of running handles (`runningThreads`) and a `std::map<std::thread::id,
ThreadData>` of per-worker records (`threadsData`), plus one global
`std::atomic_bool programFinished`.  We embed this state shallowly:

* thread ids become `Nat`;
* the `std::map` becomes an association list with `std::map` semantics
  (`insert` does not overwrite an existing key, `at` on a missing key
  throws, which we model as `Option`/a `fatal` outcome);
* a `std::thread` handle becomes a `ThreadHandle` carrying its id and a
  `joined` flag; `get_id()` on a joined handle returns the default
  (no-thread) id, modelled as `none`;
* joins are recorded in a ghost `joinLog` field so that theorems can
  speak about which tasks have been joined; no operation reads it;
* `int64_t` values become `Int`; the `int` results of `std::stoi` are
  range-checked against the 32-bit bounds exactly as `std::stoi` does.

Each definition is translated from the correspondingly named C++
function.
-/

namespace CppThreads

/-- `struct ThreadData { bool killed; int64_t value; }`. -/
structure ThreadData where
  killed : Bool
  value : Int
deriving Repr, DecidableEq

/-- One element of `std::list<std::thread> runningThreads`: the handle of a
spawned worker.  `joined = true` after `join()` has returned on it. -/
structure ThreadHandle where
  tid : Nat
  joined : Bool
deriving Repr, DecidableEq

/-- The shared mutable state of the program: the shutdown flag
`programFinished`, the handle list `runningThreads`, the registry
`threadsData`, and a ghost log of every id that has been joined. -/
structure PoolState where
  programFinished : Bool
  runningThreads : List ThreadHandle
  threadsData : List (Nat × ThreadData)
  joinLog : List Nat
deriving Repr, DecidableEq

/-- `std::thread::get_id()`: the handle's id while the thread is joinable;
after `join()` it returns the default `std::thread::id`, which matches no
live worker — modelled as `none`. -/
def getId (h : ThreadHandle) : Option Nat :=
  if h.joined then none else some h.tid

/-- `threadsData.find(id)` / `threadsData.at(id)` viewed as a lookup:
`none` models the key being absent (`at` would throw `std::out_of_range`). -/
def dataLookup (id : Nat) : List (Nat × ThreadData) → Option ThreadData
  | [] => none
  | (k, d) :: rest => if k = id then some d else dataLookup id rest

/-- `threadsData.insert({id, d})`: `std::map::insert` leaves the map
unchanged when the key is already present. -/
def dataInsert (id : Nat) (d : ThreadData) (m : List (Nat × ThreadData)) :
    List (Nat × ThreadData) :=
  match dataLookup id m with
  | some _ => m
  | none => (id, d) :: m

/-- Mutation through `threadsData.at(id)` (`.killed = true`,
`.value = v`, `++.value`): rewrites the unique entry with key `id`. -/
def dataUpdate (id : Nat) (f : ThreadData → ThreadData) :
    List (Nat × ThreadData) → List (Nat × ThreadData)
  | [] => []
  | (k, d) :: rest =>
    if k = id then (k, f d) :: dataUpdate id f rest
    else (k, d) :: dataUpdate id f rest

/-- `threadsData.erase(id)`. -/
def dataErase (id : Nat) : List (Nat × ThreadData) → List (Nat × ThreadData)
  | [] => []
  | (k, d) :: rest =>
    if k = id then dataErase id rest else (k, d) :: dataErase id rest

/-- `threadsData.at(id).killed = true` (inside `killThread`). -/
def markKilled (id : Nat) (m : List (Nat × ThreadData)) : List (Nat × ThreadData) :=
  dataUpdate id (fun d => { d with killed := true }) m

/-- `threadsData.at(id).value = v` (inside `resetThread`). -/
def setValue (id : Nat) (v : Int) (m : List (Nat × ThreadData)) : List (Nat × ThreadData) :=
  dataUpdate id (fun d => { d with value := v }) m

/-- `initializeThreadValue`: the caller-supplied seed if present, otherwise
the process-seeded `std::rand()` value, passed in as `randomValue`. -/
def initializeThreadValue (initialValue : Option Int) (randomValue : Int) : Int :=
  match initialValue with
  | some v => v
  | none => randomValue

/-- `startNewThread`: under the pool lock, `runningThreads.emplace_back`
adds a fresh joinable handle.  The runtime-assigned thread id is passed in
as `newTid`.  The worker body runs later (see `workerRegister`/`tickStep`). -/
def startNewThread (newTid : Nat) (s : PoolState) : PoolState :=
  { s with runningThreads := s.runningThreads ++ [⟨newTid, false⟩] }

/-- The worker's prologue (the lambda in `startNewThread` before its loop):
it computes its initial value and does
`threadsData.insert({threadId, {false, threadValue}})`. -/
def workerRegister (tid : Nat) (initialValue : Option Int) (randomValue : Int)
    (s : PoolState) : PoolState :=
  { s with threadsData :=
      dataInsert tid ⟨false, initializeThreadValue initialValue randomValue⟩ s.threadsData }

/-- Outcome of one pass through the worker loop's locked block. -/
inductive TickResult where
  /-- `threadsData.at(threadId)` threw `std::out_of_range`: the exception is
  unhandled inside the thread, so the process terminates. -/
  | fatal
  /-- `threadData.killed` was true: `break` without mutating `value`. -/
  | stop
  /-- `threadValue = ++threadData.value`: the incremented value. -/
  | advanced (newValue : Int)
deriving Repr, DecidableEq

/-- One iteration of the worker loop body after the 1s sleep:
`auto &threadData = threadsData.at(threadId); if (threadData.killed) break;
threadValue = ++threadData.value;`. -/
def tickStep (tid : Nat) (s : PoolState) : TickResult × PoolState :=
  match dataLookup tid s.threadsData with
  | none => (TickResult.fatal, s)
  | some d =>
    if d.killed then (TickResult.stop, s)
    else (TickResult.advanced (d.value + 1),
      { s with threadsData := dataUpdate tid (fun e => { e with value := e.value + 1 }) s.threadsData })

/-- The line `printThreadsInfo` produces for one handle:
`thread.get_id()` then `threadsData.at(id).value`.  `none` models the
unhandled `std::out_of_range` when the id is not a key of the map. -/
def lineOf (data : List (Nat × ThreadData)) (h : ThreadHandle) : Option (Nat × Int) :=
  match getId h with
  | none => none
  | some tid =>
    match dataLookup tid data with
    | none => none
    | some d => some (tid, d.value)

/-- The loop of `printThreadsInfo` over `runningThreads`; any throwing
lookup aborts the whole command (the exception propagates). -/
def infoLines (data : List (Nat × ThreadData)) : List ThreadHandle → Option (List (Nat × Int))
  | [] => some []
  | h :: rest =>
    match lineOf data h with
    | none => none
    | some line => (infoLines data rest).map (fun ls => line :: ls)

/-- `printThreadsInfo`: one `(id, value)` line per handle in
`runningThreads`, or `none` if a lookup threw. -/
def printThreadsInfo (s : PoolState) : Option (List (Nat × Int)) :=
  infoLines s.threadsData s.runningThreads

/-- Following the spec's words, for comparison with `printThreadsInfo`:
"Workers present in the handle set but not yet registered are simply
omitted".  Modelled from the spec, not from the source. -/
def infoSpecOmit (s : PoolState) : List (Nat × Int) :=
  s.runningThreads.filterMap (fun h =>
    match getId h with
    | none => none
    | some tid =>
      match dataLookup tid s.threadsData with
      | none => none
      | some d => some (tid, d.value))

/-- `std::find_if(runningThreads.begin(), runningThreads.end(), ...)`
comparing `thread.get_id() == idToKill`. -/
def findHandle (id : Nat) (hs : List ThreadHandle) : Option ThreadHandle :=
  hs.find? (fun h => getId h == some id)

/-- `runningThreads.erase(threadIt)` where `threadIt` was produced by the
`find_if` above: removes the first handle whose `get_id()` equals `id`. -/
def eraseHandle (id : Nat) : List ThreadHandle → List ThreadHandle
  | [] => []
  | h :: rest =>
    if getId h == some id then rest else h :: eraseHandle id rest

/-- `killThread(id)`: return early if the id has no record; otherwise mark
the record killed, locate the handle, `join()` it (logged in `joinLog`),
then erase the record and the handle.  When the record exists but no
handle matches, the C++ erases the `end()` iterator — undefined behaviour,
modelled as `none`. -/
def killThread (id : Nat) (s : PoolState) : Option PoolState :=
  match dataLookup id s.threadsData with
  | none => some s
  | some _ =>
    match findHandle id s.runningThreads with
    | some h =>
      some { s with
        threadsData := dataErase id (markKilled id s.threadsData),
        runningThreads := eraseHandle id s.runningThreads,
        joinLog := s.joinLog ++ [h.tid] }
    | none => none

/-- Console output events of the command dispatcher. -/
inductive OutMsg where
  /-- One `printThreadsInfo` line. -/
  | threadInfoLine (id : Nat) (value : Int)
  /-- `"Please provide thread id"`. -/
  | pleaseProvideThreadId
  /-- `"Thread (id=...), new value is ..."`. -/
  | resetNotice (id : Nat) (value : Int)
  /-- `"Unknown command."`. -/
  | unknownCommandMsg
deriving Repr, DecidableEq

/-- `resetThread(id, newValue)`: return early (printing nothing) if the id
has no record; otherwise overwrite the record's `value` and print the
reset notice. -/
def resetThread (id : Nat) (v : Int) (s : PoolState) : PoolState × List OutMsg :=
  match dataLookup id s.threadsData with
  | none => (s, [])
  | some _ =>
    ({ s with threadsData := setValue id v s.threadsData }, [OutMsg.resetNotice id v])

/-- `stopRunningThreads`: joins every handle in `runningThreads` — and
nothing else: the list and the registry are not cleared. -/
def stopRunningThreads (s : PoolState) : PoolState :=
  { s with
    runningThreads := s.runningThreads.map (fun h => { h with joined := true }),
    joinLog := s.joinLog ++ s.runningThreads.map (fun h => h.tid) }

/-- The `stop` branch of `invokeCommand`:
`programFinished = true; stopRunningThreads();`. -/
def stopCommand (s : PoolState) : PoolState :=
  stopRunningThreads { s with programFinished := true }

/-! ### `std::stoi` and the command dispatcher -/

/-- Failure modes of `std::stoi`. -/
inductive StoiError where
  /-- No digits could be parsed: `std::invalid_argument`. -/
  | invalidArgument
  /-- The parsed value does not fit in `int`: `std::out_of_range`. -/
  | outOfRange
deriving Repr, DecidableEq

/-- `INT_MAX` on the target platform (32-bit `int`). -/
def intMax : Int := 2147483647

/-- `INT_MIN` on the target platform (32-bit `int`). -/
def intMin : Int := -2147483648

/-- Accumulate the longest leading run of decimal digits, base 10. -/
def parseNatAcc : List Char → Nat → Nat
  | [], acc => acc
  | c :: rest, acc =>
    if c.isDigit then parseNatAcc rest (acc * 10 + (c.toNat - 48)) else acc

/-- The optional sign handled by `std::stoi` after leading whitespace. -/
def splitSign : List Char → Int × List Char
  | '-' :: rest => (-1, rest)
  | '+' :: rest => (1, rest)
  | cs => (1, cs)

/-- `std::stoi(s)`: skip leading whitespace, read an optional sign and the
longest run of decimal digits (trailing characters are ignored); throw
`std::invalid_argument` when there is no digit, `std::out_of_range` when
the value falls outside the `int` range. -/
def stoi (s : String) : Except StoiError Int :=
  let cs := s.data.dropWhile (fun c => c.isWhitespace)
  let sc := splitSign cs
  match sc.2 with
  | [] => Except.error StoiError.invalidArgument
  | c :: _ =>
    if c.isDigit then
      let v : Int := sc.1 * (parseNatAcc sc.2 0 : Int)
      if v < intMin ∨ intMax < v then Except.error StoiError.outOfRange
      else Except.ok v
    else Except.error StoiError.invalidArgument

/-- `std::stoi(arguments.at(i))` wrapped in the dispatcher's
`try { ... } catch (...)`: `none` when `at` throws (index out of bounds)
or `stoi` throws. -/
def tryStoiArg (arguments : List String) (i : Nat) : Option Int :=
  match arguments.get? i with
  | none => none
  | some a =>
    match stoi a with
    | Except.ok v => some v
    | Except.error _ => none

/-- The `int` → `size_t` conversion performed by `size_t id = std::stoi(...)`
(reduction modulo 2^64). -/
def sizeTOfInt (v : Int) : Nat := (v % (2 : Int) ^ 64).toNat

/-- What the `if`-chain of `invokeCommand` decides to do, before touching
any state. -/
inductive CommandAction where
  | infoCmd
  /-- `startNewThread(value)` with the optional parsed seed. -/
  | newThread (seed : Option Int)
  | killCmd (id : Nat)
  | resetCmd (id : Nat) (value : Int)
  | stopCmd
  /-- `kill` with a missing/malformed id: print the usage error, return. -/
  | usageErrorKill
  /-- `reset` with a missing/malformed id: print the usage error, return. -/
  | usageErrorReset
  | unknownCmd
deriving Repr, DecidableEq

/-- The `if`-chain of `invokeCommand` on an already tokenized line. -/
def dispatchCommand (command : String) (arguments : List String) : CommandAction :=
  if command = "info" then CommandAction.infoCmd
  else if command = "new" then CommandAction.newThread (tryStoiArg arguments 0)
  else if command = "kill" then
    match tryStoiArg arguments 0 with
    | some v => CommandAction.killCmd (sizeTOfInt v)
    | none => CommandAction.usageErrorKill
  else if command = "reset" then
    match tryStoiArg arguments 0 with
    | some v => CommandAction.resetCmd (sizeTOfInt v) ((tryStoiArg arguments 1).getD 0)
    | none => CommandAction.usageErrorReset
  else if command = "stop" then CommandAction.stopCmd
  else CommandAction.unknownCmd

/-- Execution of the chosen action on the shared state.  `newTid` is the id
the runtime would assign to a newly spawned thread.  `none` models a
command that terminates the process with an unhandled exception or
undefined behaviour. -/
def invokeAction (act : CommandAction) (newTid : Nat) (s : PoolState) :
    Option (PoolState × List OutMsg) :=
  match act with
  | CommandAction.infoCmd =>
    match printThreadsInfo s with
    | none => none
    | some lines => some (s, lines.map (fun p => OutMsg.threadInfoLine p.1 p.2))
  | CommandAction.newThread _ => some (startNewThread newTid s, [])
  | CommandAction.killCmd id => (killThread id s).map (fun t => (t, []))
  | CommandAction.resetCmd id v => some (resetThread id v s)
  | CommandAction.stopCmd => some (stopCommand s, [])
  | CommandAction.usageErrorKill => some (s, [OutMsg.pleaseProvideThreadId])
  | CommandAction.usageErrorReset => some (s, [OutMsg.pleaseProvideThreadId])
  | CommandAction.unknownCmd => some (s, [OutMsg.unknownCommandMsg])

/-- `parseCommand`: `istringstream` extraction — split the line on
whitespace; the first token is the command (empty when the line is blank),
the rest are the arguments. -/
def parseCommand (line : String) : String × List String :=
  let tokens := (line.split (fun c => c.isWhitespace)).filter (fun t => t ≠ "")
  match tokens with
  | [] => ("", [])
  | c :: args => (c, args)

/-- `invokeCommand(line)`. -/
def invokeCommand (line : String) (newTid : Nat) (s : PoolState) :
    Option (PoolState × List OutMsg) :=
  invokeAction (dispatchCommand (parseCommand line).1 (parseCommand line).2) newTid s

/-! ### `parseCommandLine` and the process exit code -/

/-- The exceptions `parseCommandLine` catches; each leads to `exit(1)`
after the shown message. -/
inductive CmdLineError where
  /-- `std::invalid_argument` handler: `"Value of an argument is not a number"`. -/
  | valueNotANumber
  /-- `std::logic_error` handler: prints `e.what()`. -/
  | logicErrorMsg (msg : String)
deriving Repr, DecidableEq

/-- The `convertArgumentToPositiveInteger` lambda: `std::stoi`, then throw
`std::logic_error` on a negative value.  A `std::out_of_range` from `stoi`
is a `std::logic_error` and reaches that handler. -/
def convertArgumentToPositiveInteger (arg : String) : Except CmdLineError Int :=
  match stoi arg with
  | Except.error StoiError.invalidArgument => Except.error CmdLineError.valueNotANumber
  | Except.error StoiError.outOfRange => Except.error (CmdLineError.logicErrorMsg "stoi")
  | Except.ok v =>
    if v < 0 then
      Except.error (CmdLineError.logicErrorMsg "Parameter value must be a positive integer number")
    else Except.ok v

/-- The argument loop of `parseCommandLine`: `--threads n` and `--delay n`
consume two tokens (only when a next token exists); anything else — or a
trailing flag with no value — is an unknown-parameter `std::logic_error`. -/
def parseArgsLoop : List String → Nat → Nat → Except CmdLineError (Nat × Nat)
  | [], threads, delay => Except.ok (threads, delay)
  | [a], _, _ => Except.error (CmdLineError.logicErrorMsg ("Unknown command line parameter " ++ a))
  | a :: v :: rest, threads, delay =>
    if a = "--threads" then
      match convertArgumentToPositiveInteger v with
      | Except.error e => Except.error e
      | Except.ok x => parseArgsLoop rest x.toNat delay
    else if a = "--delay" then
      match convertArgumentToPositiveInteger v with
      | Except.error e => Except.error e
      | Except.ok x => parseArgsLoop rest threads x.toNat
    else Except.error (CmdLineError.logicErrorMsg ("Unknown command line parameter " ++ a))

/-- `parseCommandLine(argc, argv)` on the arguments after the program name:
defaults are `hardware_concurrency()` threads and a 1-second delay. -/
def parseCommandLine (hardwareConcurrency : Nat) (args : List String) :
    Except CmdLineError (Nat × Nat) :=
  parseArgsLoop args hardwareConcurrency 1

/-- The process exit code as a function of the command line: `exit(1)`
when `parseCommandLine` reports an error, otherwise `main` runs to its
`return 0` after the `stop`-initiated shutdown. -/
def startupExitCode (hardwareConcurrency : Nat) (args : List String) : Nat :=
  match parseCommandLine hardwareConcurrency args with
  | Except.error _ => 1
  | Except.ok _ => 0

/-! ### Concrete states used to exercise the theorems -/

/-- A state with one running worker: id 5, not killed, value 100. -/
def exampleStateA : PoolState := ⟨false, [⟨5, false⟩], [(5, ⟨false, 100⟩)], []⟩

/-- A state inside the registration window: the handle with id 7 is already
in `runningThreads` but the worker has not yet inserted its record. -/
def exampleStateB : PoolState := ⟨false, [⟨7, false⟩], [], []⟩

/-- An operation on the shared state never downgrades a `killed` flag: a
record that was killed and still exists afterwards is still killed. -/
def preservesKilled (f : PoolState → PoolState) : Prop :=
  ∀ (s : PoolState) (id : Nat) (d d' : ThreadData),
    dataLookup id s.threadsData = some d →
    dataLookup id (f s).threadsData = some d' →
    d.killed = true → d'.killed = true

/-! ### Registry lemmas -/

theorem dataLookup_dataUpdate_self (id : Nat) (f : ThreadData → ThreadData)
    (m : List (Nat × ThreadData)) :
    dataLookup id (dataUpdate id f m) = (dataLookup id m).map f := by
  induction m with
  | nil => rfl
  | cons p rest ih =>
    obtain ⟨k, d⟩ := p
    by_cases h : k = id <;> simp [dataUpdate, dataLookup, h, ih]

theorem dataLookup_dataUpdate_other (id j : Nat) (f : ThreadData → ThreadData)
    (m : List (Nat × ThreadData)) (hne : j ≠ id) :
    dataLookup j (dataUpdate id f m) = dataLookup j m := by
  induction m with
  | nil => rfl
  | cons p rest ih =>
    obtain ⟨k, d⟩ := p
    by_cases h : k = id
    · simp [dataUpdate, dataLookup, h, Ne.symm hne, ih]
    · by_cases h2 : k = j <;> simp [dataUpdate, dataLookup, h, h2, hne, Ne.symm hne, ih]

theorem dataLookup_dataErase_self (id : Nat) (m : List (Nat × ThreadData)) :
    dataLookup id (dataErase id m) = none := by
  induction m with
  | nil => rfl
  | cons p rest ih =>
    obtain ⟨k, d⟩ := p
    by_cases h : k = id <;> simp [dataErase, dataLookup, h, ih]

theorem dataLookup_dataErase_other (id j : Nat) (m : List (Nat × ThreadData)) (hne : j ≠ id) :
    dataLookup j (dataErase id m) = dataLookup j m := by
  induction m with
  | nil => rfl
  | cons p rest ih =>
    obtain ⟨k, d⟩ := p
    by_cases h : k = id
    · simp [dataErase, dataLookup, h, Ne.symm hne, ih]
    · by_cases h2 : k = j <;> simp [dataErase, dataLookup, h, h2, hne, Ne.symm hne, ih]

theorem dataLookup_dataInsert_fresh (id : Nat) (d : ThreadData)
    (m : List (Nat × ThreadData)) (h : dataLookup id m = none) :
    dataLookup id (dataInsert id d m) = some d := by
  simp [dataInsert, dataLookup, h]

theorem dataInsert_of_present (id : Nat) (d d0 : ThreadData)
    (m : List (Nat × ThreadData)) (h : dataLookup id m = some d0) :
    dataInsert id d m = m := by
  simp [dataInsert, h]

theorem dataLookup_dataInsert_other (id j : Nat) (d : ThreadData)
    (m : List (Nat × ThreadData)) (hne : j ≠ id) :
    dataLookup j (dataInsert id d m) = dataLookup j m := by
  unfold dataInsert
  cases h : dataLookup id m with
  | some d0 => rfl
  | none => simp [dataLookup, Ne.symm hne]

/-! ### Handle-list and info lemmas -/

theorem getId_eq_some (h : ThreadHandle) (id : Nat) :
    getId h = some id ↔ h.joined = false ∧ h.tid = id := by
  unfold getId
  by_cases hj : h.joined <;> simp [hj]

theorem eraseHandle_not_mem (id : Nat) (hs : List ThreadHandle)
    (hcount : List.countP (fun h => getId h == some id) hs ≤ 1) :
    ∀ h' ∈ eraseHandle id hs, ¬ getId h' = some id := by
  induction hs with
  | nil => intro h' hm; cases hm
  | cons h rest ih =>
    intro h' hm
    rw [List.countP_cons] at hcount
    by_cases hp : (getId h == some id) = true
    · rw [eraseHandle, if_pos hp] at hm
      simp only [hp, if_true] at hcount
      have h0 : List.countP (fun h2 => getId h2 == some id) rest = 0 := by omega
      have := (List.countP_eq_zero.1 h0) h' hm
      simpa using this
    · rw [eraseHandle, if_neg hp] at hm
      rw [List.mem_cons] at hm
      rcases hm with rfl | hm
      · simpa using hp
      · exact ih (by simp only [hp, if_false] at hcount; omega) h' hm

theorem infoLines_eq_map (data : List (Nat × ThreadData)) (g : ThreadHandle → Nat × Int)
    (hs : List ThreadHandle) (hall : ∀ h ∈ hs, lineOf data h = some (g h)) :
    infoLines data hs = some (hs.map g) := by
  induction hs with
  | nil => rfl
  | cons h rest ih =>
    have hh := hall h (List.mem_cons_self h rest)
    have hr : ∀ h2 ∈ rest, lineOf data h2 = some (g h2) :=
      fun h2 hm => hall h2 (List.mem_cons_of_mem h hm)
    simp [infoLines, hh, ih hr]

theorem infoLines_none_of_mem (data : List (Nat × ThreadData)) (hs : List ThreadHandle)
    (h : ThreadHandle) (hm : h ∈ hs) (hnone : lineOf data h = none) :
    infoLines data hs = none := by
  induction hs with
  | nil => cases hm
  | cons h0 rest ih =>
    rw [List.mem_cons] at hm
    rcases hm with rfl | hm
    · simp [infoLines, hnone]
    · cases hline : lineOf data h0 with
      | none => simp [infoLines, hline]
      | some line => simp [infoLines, hline, ih hm]

theorem infoLines_mem_source (data : List (Nat × ThreadData)) (hs : List ThreadHandle)
    (lines : List (Nat × Int)) (hinfo : infoLines data hs = some lines)
    (id : Nat) (v : Int) (hmem : (id, v) ∈ lines) :
    ∃ h ∈ hs, getId h = some id := by
  induction hs generalizing lines with
  | nil =>
    rw [infoLines] at hinfo
    injection hinfo with hinfo
    subst hinfo
    cases hmem
  | cons h rest ih =>
    rw [infoLines] at hinfo
    cases hline : lineOf data h with
    | none => rw [hline] at hinfo; cases hinfo
    | some line =>
      rw [hline] at hinfo
      cases hrest : infoLines data rest with
      | none => rw [hrest] at hinfo; cases hinfo
      | some ls =>
        rw [hrest] at hinfo
        simp only [Option.map_some'] at hinfo
        injection hinfo with hinfo
        subst hinfo
        rw [List.mem_cons] at hmem
        rcases hmem with hmem | hmem
        · cases hgid : getId h with
          | none => simp [lineOf, hgid] at hline
          | some tid =>
            simp only [lineOf, hgid] at hline
            cases hdl : dataLookup tid data with
            | none => simp [hdl] at hline
            | some d =>
              simp only [hdl] at hline
              injection hline with hline
              have h12 : (tid, d.value) = (id, v) := hline.trans hmem.symm
              injection h12 with h1 h2
              exact ⟨h, List.mem_cons_self h rest, by rw [hgid, h1]⟩
        · obtain ⟨h2, hm2, hg2⟩ := ih ls hrest hmem
          exact ⟨h2, List.mem_cons_of_mem h hm2, hg2⟩

/-! ### Claim theorems -/

/-- C1: `killThread` on an id with no Registry record is a no-op (not an
error); and for a running worker (record present and a joinable handle
with that id in the running set, ids unique in the set), once `killThread`
returns the task has been joined and the id has been removed from both the
Registry and the handle set, so it no longer appears in `printThreadsInfo`
output and any subsequent `killThread`/`resetThread` on it is a no-op. -/
theorem kill_contract :
    (∀ (s : PoolState) (id : Nat),
      dataLookup id s.threadsData = none → killThread id s = some s)
  ∧ (∀ (s : PoolState) (id : Nat) (d : ThreadData) (h : ThreadHandle),
      dataLookup id s.threadsData = some d →
      findHandle id s.runningThreads = some h →
      List.countP (fun h2 => getId h2 == some id) s.runningThreads ≤ 1 →
      ∃ s', killThread id s = some s'
        ∧ id ∈ s'.joinLog
        ∧ dataLookup id s'.threadsData = none
        ∧ (∀ h' ∈ s'.runningThreads, ¬ getId h' = some id)
        ∧ killThread id s' = some s'
        ∧ (∀ v : Int, resetThread id v s' = (s', []))
        ∧ (∀ (lines : List (Nat × Int)) (v : Int),
            printThreadsInfo s' = some lines → (id, v) ∉ lines)) := by
  constructor
  · intro s id hnone
    simp [killThread, hnone]
  · intro s id d h hd hfind hcount
    have hp : (getId h == some id) = true := by
      rw [findHandle] at hfind
      exact List.find?_some (p := fun h2 => getId h2 == some id) hfind
    have hgid : getId h = some id := by simpa using hp
    have htid : h.tid = id := ((getId_eq_some h id).1 hgid).2
    refine ⟨{ s with
        threadsData := dataErase id (markKilled id s.threadsData),
        runningThreads := eraseHandle id s.runningThreads,
        joinLog := s.joinLog ++ [h.tid] }, ?_, ?_, ?_, ?_, ?_, ?_, ?_⟩
    · simp [killThread, hd, hfind]
    · simp [htid]
    · exact dataLookup_dataErase_self id _
    · intro h' hm
      exact eraseHandle_not_mem id s.runningThreads hcount h' hm
    · simp [killThread, dataLookup_dataErase_self]
    · intro v
      simp [resetThread, dataLookup_dataErase_self]
    · intro lines v hinfo hmem
      obtain ⟨h', hm', hg'⟩ := infoLines_mem_source _ _ lines hinfo id v hmem
      exact eraseHandle_not_mem id s.runningThreads hcount h' hm' hg'

/-- C1 witness: in the one-worker state, killing the unknown id 9 is a
no-op and killing the running worker 5 removes it everywhere. -/
theorem kill_contract_witness :
    killThread 9 exampleStateA = some exampleStateA
  ∧ ∃ s', killThread 5 exampleStateA = some s'
      ∧ 5 ∈ s'.joinLog
      ∧ dataLookup 5 s'.threadsData = none
      ∧ (∀ h' ∈ s'.runningThreads, ¬ getId h' = some 5)
      ∧ killThread 5 s' = some s'
      ∧ (∀ v : Int, resetThread 5 v s' = (s', []))
      ∧ (∀ (lines : List (Nat × Int)) (v : Int),
          printThreadsInfo s' = some lines → (5, v) ∉ lines) :=
  ⟨kill_contract.1 exampleStateA 9 rfl,
   kill_contract.2 exampleStateA 5 ⟨false, 100⟩ ⟨5, false⟩ rfl rfl (by decide)⟩

/-- C2 counterexample: the claim says that after the `stop` command both
the handle set and the Registry are cleared and zero workers remain, but
`stopRunningThreads` only joins the handles: in the one-worker state, both
the (now joined) handle and the Registry record are still there. -/
theorem stop_not_cleared_cex :
    (stopCommand exampleStateA).runningThreads ≠ []
  ∧ (stopCommand exampleStateA).runningThreads = [⟨5, true⟩]
  ∧ (stopCommand exampleStateA).threadsData = [(5, ⟨false, 100⟩)] := by
  refine ⟨?_, ?_, ?_⟩ <;> simp [stopCommand, stopRunningThreads, exampleStateA]

/-- C2 amended: the `stop` command sets the process-wide shutdown flag and
joins every handle in the running set (each remaining handle is joined and
its id is logged as joined), but it does not clear the handle set or the
Registry: the handle ids and the Registry contents are unchanged. -/
theorem stop_joins_all (s : PoolState) :
    (stopCommand s).programFinished = true
  ∧ (∀ h ∈ (stopCommand s).runningThreads, h.joined = true)
  ∧ (stopCommand s).runningThreads.map (fun h => h.tid) = s.runningThreads.map (fun h => h.tid)
  ∧ (∀ h ∈ s.runningThreads, h.tid ∈ (stopCommand s).joinLog)
  ∧ (stopCommand s).threadsData = s.threadsData := by
  refine ⟨rfl, ?_, ?_, ?_, rfl⟩
  · intro h hm
    simp only [stopCommand, stopRunningThreads, List.mem_map] at hm
    obtain ⟨h0, _, rfl⟩ := hm
    rfl
  · simp [stopCommand, stopRunningThreads]
  · intro h hm
    simp only [stopCommand, stopRunningThreads, List.mem_append, List.mem_map]
    exact Or.inr ⟨h, hm, rfl⟩

/-- C2 witness: the amended statement at the concrete one-worker state. -/
theorem stop_joins_all_witness :
    (∀ h ∈ (stopCommand exampleStateA).runningThreads, h.joined = true)
  ∧ (∀ h ∈ exampleStateA.runningThreads, h.tid ∈ (stopCommand exampleStateA).joinLog) :=
  ⟨(stop_joins_all exampleStateA).2.1, (stop_joins_all exampleStateA).2.2.2.1⟩

/-- C3: one worker tick with the record present: if `killed` is set the
tick stops the worker without mutating anything; otherwise it increments
the value by exactly 1 and touches nothing else; and a tick right after a
`resetThread` to `v` advances to `v + 1`. -/
theorem tick_contract (s : PoolState) (tid : Nat) (d : ThreadData)
    (hd : dataLookup tid s.threadsData = some d) :
    (d.killed = true → tickStep tid s = (TickResult.stop, s))
  ∧ (d.killed = false →
      (tickStep tid s).1 = TickResult.advanced (d.value + 1)
    ∧ dataLookup tid (tickStep tid s).2.threadsData = some ⟨false, d.value + 1⟩
    ∧ (∀ j, j ≠ tid → dataLookup j (tickStep tid s).2.threadsData = dataLookup j s.threadsData)
    ∧ (tickStep tid s).2.runningThreads = s.runningThreads
    ∧ (tickStep tid s).2.programFinished = s.programFinished)
  ∧ (∀ v : Int, d.killed = false →
      (tickStep tid (resetThread tid v s).1).1 = TickResult.advanced (v + 1)) := by
  refine ⟨?_, ?_, ?_⟩
  · intro hk
    simp [tickStep, hd, hk]
  · intro hk
    refine ⟨?_, ?_, ?_, ?_, ?_⟩
    · simp [tickStep, hd, hk]
    · simp only [tickStep, hd, hk]
      rw [if_neg (by simp [hk])]
      simp only []
      rw [dataLookup_dataUpdate_self, hd]
      cases d
      simp_all
    · intro j hj
      simp only [tickStep, hd, hk]
      rw [if_neg (by simp [hk])]
      exact dataLookup_dataUpdate_other tid j _ s.threadsData hj
    · simp [tickStep, hd, hk]
    · simp [tickStep, hd, hk]
  · intro v hk
    have hres : dataLookup tid (resetThread tid v s).1.threadsData = some ⟨d.killed, v⟩ := by
      simp only [resetThread, hd]
      rw [setValue, dataLookup_dataUpdate_self, hd]
      cases d
      rfl
    rw [hk] at hres
    simp [tickStep, hres]

/-- C3 witness: in the one-worker state the tick advances 100 to 101, and
after a reset to 7 the next tick advances to 8. -/
theorem tick_contract_witness :
    (tickStep 5 exampleStateA).1 = TickResult.advanced 101
  ∧ (tickStep 5 (resetThread 5 7 exampleStateA).1).1 = TickResult.advanced 8 :=
  ⟨((tick_contract exampleStateA 5 ⟨false, 100⟩ rfl).2.1 rfl).1,
   (tick_contract exampleStateA 5 ⟨false, 100⟩ rfl).2.2 7 rfl⟩

/-- C4 counterexample: the claim says a handle in the running set without
a Registry record is simply omitted from `info` output, but
`printThreadsInfo` looks the id up with `threadsData.at`, which throws: in
the registration-window state the whole command fails (`none`) instead of
printing the empty listing that omission (`infoSpecOmit`, modelled from
the spec's words) would produce. -/
theorem info_missing_record_cex :
    exampleStateB.runningThreads = [⟨7, false⟩]
  ∧ dataLookup 7 exampleStateB.threadsData = none
  ∧ printThreadsInfo exampleStateB = none
  ∧ infoSpecOmit exampleStateB = []
  ∧ printThreadsInfo exampleStateB ≠ some (infoSpecOmit exampleStateB) := by
  refine ⟨rfl, rfl, rfl, rfl, ?_⟩
  intro hc
  cases hc

/-- C4 amended: `printThreadsInfo` prints one line per handle in the
running set, giving that worker's id and its current Registry value — but
only when every handle resolves: a handle whose id has no Registry record
makes the lookup throw, and the whole `info` command fails with an
unhandled error instead of omitting that worker. -/
theorem info_contract :
    (∀ (data : List (Nat × ThreadData)) (h : ThreadHandle) (d : ThreadData),
      h.joined = false → dataLookup h.tid data = some d →
      lineOf data h = some (h.tid, d.value))
  ∧ (∀ (s : PoolState) (g : ThreadHandle → Nat × Int),
      (∀ h ∈ s.runningThreads, lineOf s.threadsData h = some (g h)) →
      printThreadsInfo s = some (s.runningThreads.map g))
  ∧ (∀ (s : PoolState) (h : ThreadHandle), h ∈ s.runningThreads →
      lineOf s.threadsData h = none → printThreadsInfo s = none) := by
  refine ⟨?_, ?_, ?_⟩
  · intro data h d hj hd
    simp [lineOf, getId, hj, hd]
  · intro s g hall
    exact infoLines_eq_map s.threadsData g s.runningThreads hall
  · intro s h hm hnone
    exact infoLines_none_of_mem s.threadsData s.runningThreads h hm hnone

/-- C4 witness: in the one-worker state, `info` prints exactly the line
for worker 5 with value 100. -/
theorem info_contract_witness :
    printThreadsInfo exampleStateA = some [(5, 100)] :=
  info_contract.2.1 exampleStateA (fun _ => (5, 100)) (by decide)

/-- C5 counterexample: the claim says a worker whose tick finds its record
missing stops immediately rather than failing; but in the
registration-window state the tick is the unhandled `std::out_of_range`
outcome (`fatal`, which terminates the process), not the graceful `stop`. -/
theorem tick_missing_record_cex :
    dataLookup 7 exampleStateB.threadsData = none
  ∧ tickStep 7 exampleStateB = (TickResult.fatal, exampleStateB)
  ∧ TickResult.fatal ≠ TickResult.stop := by
  refine ⟨rfl, rfl, ?_⟩
  intro hc
  cases hc

/-- C5 amended: a worker tick whose own-id lookup finds no record fails
with an unrecoverable error (`threadsData.at` throws, unhandled in the
thread); the worker stops without error only through the `killed` flag —
a tick on a present record is never fatal. -/
theorem tick_missing_record (s : PoolState) (tid : Nat) :
    (dataLookup tid s.threadsData = none → tickStep tid s = (TickResult.fatal, s))
  ∧ (∀ d : ThreadData, dataLookup tid s.threadsData = some d →
      (tickStep tid s).1 ≠ TickResult.fatal) := by
  constructor
  · intro hnone
    simp [tickStep, hnone]
  · intro d hd
    by_cases hk : d.killed = true
    · simp [tickStep, hd, hk]
    · simp only [tickStep, hd]
      rw [if_neg (by simpa using hk)]
      intro hc
      cases hc

/-- C5 witness: the fatal outcome at the registration-window state, and the
non-fatal tick in the one-worker state. -/
theorem tick_missing_record_witness :
    tickStep 7 exampleStateB = (TickResult.fatal, exampleStateB)
  ∧ (tickStep 5 exampleStateA).1 ≠ TickResult.fatal :=
  ⟨(tick_missing_record exampleStateB 7).1 rfl,
   (tick_missing_record exampleStateA 5).2 ⟨false, 100⟩ rfl⟩

/-- C6: `resetThread id v` on an id with no Registry record changes
nothing (and prints nothing); on a present record it overwrites only that
record's `value`, leaving its `killed` flag, all other records, the
running-handle set, the shutdown flag and the join log unchanged. -/
theorem reset_frame :
    (∀ (s : PoolState) (id : Nat) (v : Int),
      dataLookup id s.threadsData = none → resetThread id v s = (s, []))
  ∧ (∀ (s : PoolState) (id : Nat) (v : Int) (d : ThreadData),
      dataLookup id s.threadsData = some d →
        dataLookup id (resetThread id v s).1.threadsData = some ⟨d.killed, v⟩
      ∧ (∀ j, j ≠ id → dataLookup j (resetThread id v s).1.threadsData = dataLookup j s.threadsData)
      ∧ (resetThread id v s).1.runningThreads = s.runningThreads
      ∧ (resetThread id v s).1.programFinished = s.programFinished
      ∧ (resetThread id v s).1.joinLog = s.joinLog) := by
  constructor
  · intro s id v hnone
    simp [resetThread, hnone]
  · intro s id v d hd
    refine ⟨?_, ?_, ?_, ?_, ?_⟩
    · simp only [resetThread, hd]
      rw [setValue, dataLookup_dataUpdate_self, hd]
      cases d
      rfl
    · intro j hj
      simp only [resetThread, hd]
      exact dataLookup_dataUpdate_other id j _ s.threadsData hj
    · simp [resetThread, hd]
    · simp [resetThread, hd]
    · simp [resetThread, hd]

/-- C6 witness: resetting worker 5 to 7 overwrites only the value, and
resetting the unknown id 9 is a no-op. -/
theorem reset_frame_witness :
    dataLookup 5 (resetThread 5 7 exampleStateA).1.threadsData = some ⟨false, 7⟩
  ∧ resetThread 9 7 exampleStateA = (exampleStateA, []) :=
  ⟨(reset_frame.2 exampleStateA 5 7 ⟨false, 100⟩ rfl).1,
   reset_frame.1 exampleStateA 9 7 rfl⟩

/-- C7: the `killed` flag is monotonic: a worker registers its record with
`killed = false`, and every state operation (registration, tick, reset,
spawn, stop, kill) either leaves a surviving record's `killed` flag
unchanged or sets it to true — never from true back to false. -/
theorem killed_monotonic :
    (∀ (tid : Nat) (iv : Option Int) (r : Int) (s : PoolState),
      dataLookup tid s.threadsData = none →
      dataLookup tid (workerRegister tid iv r s).threadsData =
        some ⟨false, initializeThreadValue iv r⟩)
  ∧ (∀ (tid : Nat) (iv : Option Int) (r : Int), preservesKilled (workerRegister tid iv r))
  ∧ (∀ tid : Nat, preservesKilled (fun s => (tickStep tid s).2))
  ∧ (∀ (id : Nat) (v : Int), preservesKilled (fun s => (resetThread id v s).1))
  ∧ (∀ newTid : Nat, preservesKilled (startNewThread newTid))
  ∧ preservesKilled stopCommand
  ∧ (∀ (id : Nat) (s s' : PoolState), killThread id s = some s' →
      ∀ (j : Nat) (d d' : ThreadData),
        dataLookup j s.threadsData = some d →
        dataLookup j s'.threadsData = some d' →
        d.killed = true → d'.killed = true) := by
  refine ⟨?_, ?_, ?_, ?_, ?_, ?_, ?_⟩
  · intro tid iv r s hnone
    exact dataLookup_dataInsert_fresh tid _ s.threadsData hnone
  · intro tid iv r s id d d' hd hd' hk
    simp only [workerRegister] at hd'
    cases hins : dataLookup tid s.threadsData with
    | some d0 =>
      rw [dataInsert_of_present tid _ d0 s.threadsData hins] at hd'
      rw [hd] at hd'
      injection hd' with hd'
      rw [← hd']
      exact hk
    | none =>
      by_cases hij : id = tid
      · rw [hij, hins] at hd
        cases hd
      · rw [dataLookup_dataInsert_other tid id _ s.threadsData hij] at hd'
        rw [hd] at hd'
        injection hd' with hd'
        rw [← hd']
        exact hk
  · intro tid s id d d' hd hd' hk
    cases ht : dataLookup tid s.threadsData with
    | none =>
      simp only [tickStep, ht] at hd'
      rw [hd] at hd'
      injection hd' with hd'
      rw [← hd']
      exact hk
    | some d0 =>
      by_cases hkill : d0.killed = true
      · simp only [tickStep, ht, hkill, if_true] at hd'
        rw [hd] at hd'
        injection hd' with hd'
        rw [← hd']
        exact hk
      · simp [tickStep, ht, hkill] at hd'
        by_cases hij : id = tid
        · subst hij
          rw [dataLookup_dataUpdate_self, hd] at hd'
          injection hd' with hd'
          rw [← hd']
          exact hk
        · rw [dataLookup_dataUpdate_other tid id _ s.threadsData hij, hd] at hd'
          injection hd' with hd'
          rw [← hd']
          exact hk
  · intro rid v s id d d' hd hd' hk
    cases ht : dataLookup rid s.threadsData with
    | none =>
      simp only [resetThread, ht] at hd'
      rw [hd] at hd'
      injection hd' with hd'
      rw [← hd']
      exact hk
    | some d0 =>
      simp only [resetThread, ht, setValue] at hd'
      by_cases hij : id = rid
      · subst hij
        rw [dataLookup_dataUpdate_self, hd] at hd'
        injection hd' with hd'
        rw [← hd']
        exact hk
      · rw [dataLookup_dataUpdate_other rid id _ s.threadsData hij, hd] at hd'
        injection hd' with hd'
        rw [← hd']
        exact hk
  · intro newTid s id d d' hd hd' hk
    simp only [startNewThread] at hd'
    rw [hd] at hd'
    injection hd' with hd'
    rw [← hd']
    exact hk
  · intro s id d d' hd hd' hk
    simp only [stopCommand, stopRunningThreads] at hd'
    rw [hd] at hd'
    injection hd' with hd'
    rw [← hd']
    exact hk
  · intro id s s' hkill j d d' hd hd' hk
    rw [killThread] at hkill
    cases ht : dataLookup id s.threadsData with
    | none =>
      rw [ht] at hkill
      injection hkill with hkill
      rw [← hkill] at hd'
      rw [hd] at hd'
      injection hd' with hd'
      rw [← hd']
      exact hk
    | some d0 =>
      rw [ht] at hkill
      cases hfind : findHandle id s.runningThreads with
      | none => rw [hfind] at hkill; cases hkill
      | some h =>
        rw [hfind] at hkill
        injection hkill with hkill
        rw [← hkill] at hd'
        simp only [] at hd'
        by_cases hij : j = id
        · subst hij
          rw [dataLookup_dataErase_self] at hd'
          cases hd'
        · rw [dataLookup_dataErase_other id j _ hij, markKilled,
            dataLookup_dataUpdate_other id j _ s.threadsData hij, hd] at hd'
          injection hd' with hd'
          rw [← hd']
          exact hk

/-- C7 witness: a freshly registered worker starts with `killed = false`,
and a killed record that survives a tick is still killed. -/
theorem killed_monotonic_witness :
    dataLookup 11 (workerRegister 11 none 3 exampleStateA).threadsData = some ⟨false, 3⟩
  ∧ (⟨true, 100⟩ : ThreadData).killed = true :=
  ⟨killed_monotonic.1 11 none 3 exampleStateA rfl,
   killed_monotonic.2.2.2.2.2.1 ⟨false, [⟨5, false⟩], [(5, ⟨true, 100⟩)], []⟩ 5
     ⟨true, 100⟩ ⟨true, 100⟩ rfl rfl rfl⟩

/-- C8: when `--threads` or `--delay` is given a value that is not a
non-negative number (non-numeric, negative, or out of `int` range — in
all cases `∀ x, stoi v = ok x → x < 0` holds), `parseCommandLine` reports
an error; every reported error makes the process exit with code 1, and a
successful parse — the run that later ends through the normal `stop`
command — exits with code 0. -/
theorem startup_validation :
    (∀ (a v : String) (rest : List String) (threads delay : Nat),
      (a = "--threads" ∨ a = "--delay") →
      (∀ x : Int, stoi v = Except.ok x → x < 0) →
      ∃ e, parseArgsLoop (a :: v :: rest) threads delay = Except.error e)
  ∧ (∀ (hw : Nat) (args : List String) (e : CmdLineError),
      parseCommandLine hw args = Except.error e → startupExitCode hw args = 1)
  ∧ (∀ (hw : Nat) (args : List String) (cfg : Nat × Nat),
      parseCommandLine hw args = Except.ok cfg → startupExitCode hw args = 0) := by
  refine ⟨?_, ?_, ?_⟩
  · intro a v rest threads delay ha hbad
    have hconv : ∃ e, convertArgumentToPositiveInteger v = Except.error e := by
      cases hst : stoi v with
      | error err =>
        cases err
        · exact ⟨CmdLineError.valueNotANumber, by simp [convertArgumentToPositiveInteger, hst]⟩
        · exact ⟨CmdLineError.logicErrorMsg "stoi", by simp [convertArgumentToPositiveInteger, hst]⟩
      | ok x =>
        exact ⟨CmdLineError.logicErrorMsg "Parameter value must be a positive integer number",
          by simp [convertArgumentToPositiveInteger, hst, hbad x hst]⟩
    obtain ⟨e, he⟩ := hconv
    have hne : ("--delay" : String) ≠ "--threads" := by decide
    rcases ha with rfl | rfl
    · exact ⟨e, by simp [parseArgsLoop, he]⟩
    · exact ⟨e, by simp [parseArgsLoop, hne, he]⟩
  · intro hw args e he
    simp [startupExitCode, he]
  · intro hw args cfg hok
    simp [startupExitCode, hok]

/-- C8 witness: `--threads -3` is rejected (exit code 1), `--delay abc` is
rejected, and a valid command line parses and exits 0. -/
theorem startup_validation_witness :
    (∃ e, parseArgsLoop ["--threads", "-3"] 8 1 = Except.error e)
  ∧ (∃ e, parseArgsLoop ["--delay", "abc"] 8 1 = Except.error e)
  ∧ startupExitCode 8 ["--threads", "4"] = 0 :=
  ⟨startup_validation.1 "--threads" "-3" [] 8 1 (Or.inl rfl)
     (fun x hx => by
        have h3 : stoi "-3" = Except.ok (-3) := rfl
        rw [h3] at hx
        injection hx with hx
        omega),
   startup_validation.1 "--delay" "abc" [] 8 1 (Or.inr rfl)
     (fun x hx => by
        have h3 : stoi "abc" = Except.error StoiError.invalidArgument := rfl
        rw [h3] at hx
        cases hx),
   startup_validation.2.2 8 ["--threads", "4"] (4, 1) rfl⟩

/-- C9: a `kill` or `reset` whose first argument is missing or does not
parse is answered with the usage message and leaves the state untouched;
`new` with a missing or unparsable seed spawns with no seed, and the
worker then initializes from the process-seeded random value; an
unrecognized command name is reported and ignored; `reset` with a valid id
but a missing/unparsable value defaults the value to 0. -/
theorem dispatcher_errors :
    (∀ arguments : List String, tryStoiArg arguments 0 = none →
        dispatchCommand "kill" arguments = CommandAction.usageErrorKill
      ∧ dispatchCommand "reset" arguments = CommandAction.usageErrorReset
      ∧ dispatchCommand "new" arguments = CommandAction.newThread none)
  ∧ (∀ (newTid : Nat) (s : PoolState),
        invokeAction CommandAction.usageErrorKill newTid s = some (s, [OutMsg.pleaseProvideThreadId])
      ∧ invokeAction CommandAction.usageErrorReset newTid s = some (s, [OutMsg.pleaseProvideThreadId])
      ∧ invokeAction CommandAction.unknownCmd newTid s = some (s, [OutMsg.unknownCommandMsg]))
  ∧ (∀ r : Int, initializeThreadValue none r = r)
  ∧ (∀ (command : String) (arguments : List String),
      command ≠ "info" → command ≠ "new" → command ≠ "kill" →
      command ≠ "reset" → command ≠ "stop" →
      dispatchCommand command arguments = CommandAction.unknownCmd)
  ∧ (∀ (arguments : List String) (i : Int),
      tryStoiArg arguments 0 = some i → tryStoiArg arguments 1 = none →
      dispatchCommand "reset" arguments = CommandAction.resetCmd (sizeTOfInt i) 0) := by
  refine ⟨?_, ?_, ?_, ?_, ?_⟩
  · intro arguments h0
    refine ⟨?_, ?_, ?_⟩ <;> simp [dispatchCommand, h0]
  · intro newTid s
    exact ⟨rfl, rfl, rfl⟩
  · intro r
    rfl
  · intro command arguments h1 h2 h3 h4 h5
    simp [dispatchCommand, h1, h2, h3, h4, h5]
  · intro arguments i h0 h1
    simp [dispatchCommand, h0, h1]

/-- C9 witness: `kill` with no argument yields the usage error and a
no-op, `new x` spawns seedless, and `foo` is unknown. -/
theorem dispatcher_errors_witness :
    dispatchCommand "kill" [] = CommandAction.usageErrorKill
  ∧ invokeAction CommandAction.usageErrorKill 3 exampleStateA =
      some (exampleStateA, [OutMsg.pleaseProvideThreadId])
  ∧ dispatchCommand "new" ["x"] = CommandAction.newThread none
  ∧ dispatchCommand "foo" [] = CommandAction.unknownCmd
  ∧ dispatchCommand "reset" ["5"] = CommandAction.resetCmd 5 0 :=
  ⟨(dispatcher_errors.1 [] rfl).1,
   (dispatcher_errors.2.1 3 exampleStateA).1,
   (dispatcher_errors.1 ["x"] rfl).2.2,
   dispatcher_errors.2.2.2.1 "foo" [] (by decide) (by decide) (by decide) (by decide) (by decide),
   dispatcher_errors.2.2.2.2 ["5"] 5 (by decide) rfl⟩

/-- C10: every numeric command argument goes through `std::stoi`, which
rejects values outside the 32-bit `int` range with `std::out_of_range`
even though Registry values are 64-bit: such a token never parses
(`tryStoiArg` is `none`), so a `new` seed out of range silently falls back
to the seedless (random) spawn, an out-of-range `kill`/`reset` id is
answered with the usage error, and an out-of-range `reset` value silently
becomes the default 0. -/
theorem stoi_range_fallbacks :
    (∀ (arguments : List String) (i : Nat) (t : String),
      arguments.get? i = some t → stoi t = Except.error StoiError.outOfRange →
      tryStoiArg arguments i = none)
  ∧ (∀ (t : String) (rest : List String), stoi t = Except.error StoiError.outOfRange →
        dispatchCommand "new" (t :: rest) = CommandAction.newThread none
      ∧ dispatchCommand "kill" (t :: rest) = CommandAction.usageErrorKill
      ∧ dispatchCommand "reset" (t :: rest) = CommandAction.usageErrorReset)
  ∧ (∀ (idTok t : String) (i : Int), stoi idTok = Except.ok i →
      stoi t = Except.error StoiError.outOfRange →
      dispatchCommand "reset" [idTok, t] = CommandAction.resetCmd (sizeTOfInt i) 0) := by
  have hnone : ∀ (arguments : List String) (i : Nat) (t : String),
      arguments.get? i = some t → stoi t = Except.error StoiError.outOfRange →
      tryStoiArg arguments i = none := by
    intro arguments i t hget hst
    rw [List.get?_eq_getElem?] at hget
    simp [tryStoiArg, hget, hst]
  refine ⟨hnone, ?_, ?_⟩
  · intro t rest hst
    have h0 : tryStoiArg (t :: rest) 0 = none := hnone (t :: rest) 0 t rfl hst
    refine ⟨?_, ?_, ?_⟩ <;> simp [dispatchCommand, h0]
  · intro idTok t i hid hst
    have h0 : tryStoiArg [idTok, t] 0 = some i := by simp [tryStoiArg, hid]
    have h1 : tryStoiArg [idTok, t] 1 = none := hnone [idTok, t] 1 t rfl hst
    simp [dispatchCommand, h0, h1]

/-- C10 witness: 3000000000 does not fit in `int`: as a `new` seed it is
dropped, as a `kill` id it is a usage error, and as a `reset` value it
becomes 0. -/
theorem stoi_range_fallbacks_witness :
    dispatchCommand "new" ["3000000000"] = CommandAction.newThread none
  ∧ dispatchCommand "kill" ["3000000000"] = CommandAction.usageErrorKill
  ∧ dispatchCommand "reset" ["5", "3000000000"] = CommandAction.resetCmd 5 0 :=
  ⟨(stoi_range_fallbacks.2.1 "3000000000" [] rfl).1,
   (stoi_range_fallbacks.2.1 "3000000000" [] rfl).2.1,
   stoi_range_fallbacks.2.2 "5" "3000000000" 5 rfl rfl⟩

end CppThreads
